import Mathlib

/-!
Verification development for the `r_agent` LLM-agent orchestration core.

The Rust sources embedded here:
- `src/my_lib/src/api/dtos.rs` — wire data model (messages, tool calls,
  completion requests/responses) with serde-derived (de)serialization;
- `src/my_lib/src/api/tools_registry.rs` — the capability registry;
- `src/my_lib/src/api/request.rs` — the SSE stream fragment pipeline;
- `src/my_lib/src/api/agents.rs` — `prompt` request construction, response
  extraction, and the `prompt_with_tools` orchestration loop.

JSON documents are modelled by the inductive `Json` below (numbers are
restricted to integers: every numeric field of the wire protocol that the
verified code inspects — `created`, `index` — is integral).  serde's derived
serializers are modelled as functions to `Json`, the derived deserializers as
functions `Json → Except String _` that process the fields of an object in
order, error on a duplicate occurrence of a field, ignore unknown fields
(the structs do not opt into `deny_unknown_fields`), error on a missing
required field, and default a missing `Option` field to `none`.
`serde_json::from_str` is modelled as text parsing (`Json.parse`) followed by
the derived decoder.

Side effects are abstracted in the standard way: the remote model is an
oracle (`Script`) giving, for each completion query the run issues, either a
transport/protocol error or the extracted `(assistant text, tool calls)`
pair; a capability's `execute_tool` is a pure function from parsed arguments
to `Except String String`.  The loop embedding additionally returns its final
internal history, the number of completion queries issued, and the trace of
capability invocations, so that claims about those internals are statable.
-/

namespace RAgent

/-- JSON values (`serde_json::Value`), with numbers restricted to integers. -/
inductive Json where
  | null
  | bool (b : Bool)
  | num (n : Int)
  | str (s : String)
  | arr (elems : List Json)
  | obj (members : List (String × Json))

namespace Json

/-- Skip JSON whitespace. -/
def skipWs : List Char → List Char
  | [] => []
  | c :: rest =>
    if c = ' ' || c = '\n' || c = '\t' || c = '\r' then skipWs rest else c :: rest

def isDigitChar (c : Char) : Bool := '0' ≤ c && c ≤ '9'

def digitVal (c : Char) : Nat := c.toNat - '0'.toNat

/-- Consume a maximal run of digits, accumulating their value. -/
def digitsLoop : List Char → Nat → Nat × List Char
  | [], acc => (acc, [])
  | c :: rest, acc =>
    if isDigitChar c then digitsLoop rest (acc * 10 + digitVal c) else (acc, c :: rest)

/-- Parse an optionally-signed integer literal (at least one digit). -/
def parseIntPart : List Char → Option (Int × List Char)
  | '-' :: rest =>
    match rest with
    | c :: _ =>
      if isDigitChar c then
        let p := digitsLoop rest 0
        some (-(p.1 : Int), p.2)
      else none
    | [] => none
  | c :: rest =>
    if isDigitChar c then
      let p := digitsLoop (c :: rest) 0
      some ((p.1 : Int), p.2)
    else none
  | [] => none

/-- Parse the remainder of a string literal after the opening quote.
Common escapes are supported; unsupported escapes are a parse failure. -/
def parseStringRest : List Char → String → Option (String × List Char)
  | [], _ => none
  | c :: rest, acc =>
    if c = '"' then some (acc, rest)
    else if c = '\\' then
      match rest with
      | '"' :: r => parseStringRest r (acc.push '"')
      | '\\' :: r => parseStringRest r (acc.push '\\')
      | '/' :: r => parseStringRest r (acc.push '/')
      | 'n' :: r => parseStringRest r (acc.push '\n')
      | 't' :: r => parseStringRest r (acc.push '\t')
      | 'r' :: r => parseStringRest r (acc.push '\r')
      | _ => none
    else parseStringRest rest (acc.push c)

mutual

/-- Parse one JSON value (fuel-bounded recursive descent). -/
def parseValue : Nat → List Char → Option (Json × List Char)
  | 0, _ => none
  | fuel + 1, cs =>
    match skipWs cs with
    | [] => none
    | c :: rest =>
      if c = '"' then
        (parseStringRest rest "").map (fun p => (str p.1, p.2))
      else if c = '[' then
        match skipWs rest with
        | ']' :: r2 => some (arr [], r2)
        | cs2 => (parseArrayItems fuel cs2).map (fun p => (arr p.1, p.2))
      else if c = '\x7b' then
        match skipWs rest with
        | '\x7d' :: r2 => some (obj [], r2)
        | cs2 => (parseObjMembers fuel cs2).map (fun p => (obj p.1, p.2))
      else if c = 't' then
        match rest with
        | 'r' :: 'u' :: 'e' :: r => some (bool true, r)
        | _ => none
      else if c = 'f' then
        match rest with
        | 'a' :: 'l' :: 's' :: 'e' :: r => some (bool false, r)
        | _ => none
      else if c = 'n' then
        match rest with
        | 'u' :: 'l' :: 'l' :: r => some (null, r)
        | _ => none
      else
        match parseIntPart (c :: rest) with
        | some (n, r) =>
          match r with
          | c2 :: _ => if c2 = '.' || c2 = 'e' || c2 = 'E' then none else some (num n, r)
          | [] => some (num n, [])
        | none => none

/-- Parse the comma-separated items of a non-empty array, including the
closing bracket. -/
def parseArrayItems : Nat → List Char → Option (List Json × List Char)
  | 0, _ => none
  | fuel + 1, cs =>
    match parseValue fuel cs with
    | none => none
    | some (v, rest) =>
      match skipWs rest with
      | ',' :: r2 => (parseArrayItems fuel r2).map (fun p => (v :: p.1, p.2))
      | ']' :: r2 => some ([v], r2)
      | _ => none

/-- Parse the comma-separated members of a non-empty object, including the
closing brace. -/
def parseObjMembers : Nat → List Char → Option (List (String × Json) × List Char)
  | 0, _ => none
  | fuel + 1, cs =>
    match skipWs cs with
    | '"' :: rest =>
      match parseStringRest rest "" with
      | none => none
      | some (k, r1) =>
        match skipWs r1 with
        | ':' :: r2 =>
          match parseValue fuel r2 with
          | none => none
          | some (v, r3) =>
            match skipWs r3 with
            | ',' :: r4 => (parseObjMembers fuel r4).map (fun p => ((k, v) :: p.1, p.2))
            | '\x7d' :: r4 => some ([(k, v)], r4)
            | _ => none
        | _ => none
    | _ => none

end

/-- Model of `serde_json::from_str` at the text level: parse a complete JSON
document with nothing but whitespace after it.  The fuel is generous: every
recursive descent step consumes input. -/
def parse (s : String) : Option Json :=
  match parseValue (2 * s.length + 2) s.data with
  | some (j, rest) =>
    match skipWs rest with
    | [] => some j
    | _ => none
  | none => none

end Json

/-! ## Wire data model (`dtos.rs`) -/

/-- An `f32` configuration value, modelled by its bit pattern: the verified
code only stores and copies sampling parameters, never computes with them. -/
structure F32 where
  bits : Nat
deriving DecidableEq, Repr

/-- `Role` (serde `rename_all = "lowercase"`). -/
inductive Role where
  | SYSTEM
  | USER
  | ASSISTANT
  | TOOL
deriving DecidableEq, Repr

structure ImageUrl where
  url : String
deriving DecidableEq, Repr

/-- `MultiContent`: one multipart block (text or image reference). -/
structure MultiContent where
  type : String
  text : Option String
  image_url : Option ImageUrl
deriving DecidableEq, Repr

structure FunctionCall where
  name : String
  arguments : String
deriving DecidableEq, Repr

structure ToolCall where
  id : String
  type : String
  function : FunctionCall
deriving DecidableEq, Repr

/-- `Message`.  The Rust struct carries two fields that both serialize under
the wire name `content`: `content: Option<String>` and
`multi_content: Option<Vec<MultiContent>>` (the latter via
`#[serde(rename = "content")]`); every `Option` field has
`skip_serializing_if = "Option::is_none"`. -/
structure Message where
  role : Role
  content : Option String
  multi_content : Option (List MultiContent)
  tool_calls : Option (List ToolCall)
  tool_call_id : Option String
  name : Option String
deriving DecidableEq, Repr

structure FunctionDefinition where
  name : String
  description : String
  parameters : Json

/-- Wire form of a capability definition (`Tool` in `dtos.rs`). -/
structure Tool where
  type : String
  function : FunctionDefinition

structure CompletionRequest where
  model : String
  messages : List Message
  tools : Option (List Tool)
  temperature : F32
  top_p : Option F32
  stream : Option Bool

structure CompletionChoice where
  index : Nat
  message : Message
deriving DecidableEq, Repr

structure CompletionResponse where
  id : String
  created : Nat
  model : String
  choices : List CompletionChoice
deriving DecidableEq, Repr

structure StreamChunkMessage where
  role : Option Role
  content : Option String
deriving DecidableEq, Repr

structure StreamChoice where
  index : Nat
  delta : StreamChunkMessage
deriving DecidableEq, Repr

structure CompletionStreamResponse where
  id : String
  created : Nat
  model : String
  choices : List StreamChoice
deriving DecidableEq, Repr

/-! ## serde-derived serialization, modelled

Serialization of a struct emits its non-skipped fields in declaration order
as an ordered member list (serde_json happily writes a duplicate key when two
fields share a wire name). -/

def encodeRole : Role → Json
  | .SYSTEM => .str "system"
  | .USER => .str "user"
  | .ASSISTANT => .str "assistant"
  | .TOOL => .str "tool"

def serializeImageUrl (u : ImageUrl) : Json :=
  .obj [("url", .str u.url)]

def serializeMultiContent (mc : MultiContent) : Json :=
  .obj ([("type", .str mc.type)]
    ++ (match mc.text with
        | some t => [("text", .str t)]
        | none => [])
    ++ (match mc.image_url with
        | some u => [("image_url", serializeImageUrl u)]
        | none => []))

def serializeFunctionCall (fc : FunctionCall) : Json :=
  .obj [("name", .str fc.name), ("arguments", .str fc.arguments)]

def serializeToolCall (tc : ToolCall) : Json :=
  .obj [("id", .str tc.id), ("type", .str tc.type),
        ("function", serializeFunctionCall tc.function)]

/-- The serialized member list of a `Message`.  Both `content` and
`multi_content` use the wire name `content`; each `Option` field is skipped
when `none`. -/
def serializeMessage (m : Message) : List (String × Json) :=
  [("role", encodeRole m.role)]
  ++ (match m.content with
      | some s => [("content", .str s)]
      | none => [])
  ++ (match m.multi_content with
      | some mcs => [("content", .arr (mcs.map serializeMultiContent))]
      | none => [])
  ++ (match m.tool_calls with
      | some tcs => [("tool_calls", .arr (tcs.map serializeToolCall))]
      | none => [])
  ++ (match m.tool_call_id with
      | some i => [("tool_call_id", .str i)]
      | none => [])
  ++ (match m.name with
      | some n => [("name", .str n)]
      | none => [])

/-! ## serde-derived deserialization, modelled

A derived struct deserializer processes the members of a JSON object in
order: a member whose key matches a field deserializes into that field's
slot, a second occurrence of the same key is a duplicate-field error, an
unknown key is ignored, a missing required field is an error, and a missing
`Option` field defaults to `none`. -/

def decodeString : Json → Except String String
  | .str s => .ok s
  | _ => .error "invalid type: expected string"

def decodeOptString : Json → Except String (Option String)
  | .null => .ok none
  | .str s => .ok (some s)
  | _ => .error "invalid type: expected string"

def decodeRole : Json → Except String Role
  | .str "system" => .ok .SYSTEM
  | .str "user" => .ok .USER
  | .str "assistant" => .ok .ASSISTANT
  | .str "tool" => .ok .TOOL
  | _ => .error "unknown variant of Role"

def decodeOptRole : Json → Except String (Option Role)
  | .null => .ok none
  | j => (decodeRole j).map some

/-- Decode an unsigned machine integer of the given exclusive bound. -/
def decodeBoundedNat (bound : Nat) : Json → Except String Nat
  | .num n => if 0 ≤ n ∧ n < (bound : Int) then .ok n.toNat
              else .error "invalid value: integer out of range"
  | _ => .error "invalid type: expected integer"

def decodeList {α : Type} (d : Json → Except String α) : Json → Except String (List α)
  | .arr xs => xs.mapM d
  | _ => .error "invalid type: expected a sequence"

def decodeOpt {α : Type} (d : Json → Except String α) : Json → Except String (Option α)
  | .null => .ok none
  | j => (d j).map some

def readFunctionCallFields :
    List (String × Json) → Option String → Option String → Except String FunctionCall
  | [], name?, args? =>
    match name?, args? with
    | some n, some a => .ok ⟨n, a⟩
    | none, _ => .error "missing field name"
    | _, none => .error "missing field arguments"
  | ("name", v) :: rest, name?, args? =>
    if name?.isSome then .error "duplicate field name"
    else do readFunctionCallFields rest (some (← decodeString v)) args?
  | ("arguments", v) :: rest, name?, args? =>
    if args?.isSome then .error "duplicate field arguments"
    else do readFunctionCallFields rest name? (some (← decodeString v))
  | _ :: rest, name?, args? => readFunctionCallFields rest name? args?

def decodeFunctionCall : Json → Except String FunctionCall
  | .obj kvs => readFunctionCallFields kvs none none
  | _ => .error "invalid type: expected struct FunctionCall"

def readToolCallFields :
    List (String × Json) → Option String → Option String → Option FunctionCall →
    Except String ToolCall
  | [], id?, type?, fn? =>
    match id?, type?, fn? with
    | some i, some t, some f => .ok ⟨i, t, f⟩
    | none, _, _ => .error "missing field id"
    | _, none, _ => .error "missing field type"
    | _, _, none => .error "missing field function"
  | ("id", v) :: rest, id?, type?, fn? =>
    if id?.isSome then .error "duplicate field id"
    else do readToolCallFields rest (some (← decodeString v)) type? fn?
  | ("type", v) :: rest, id?, type?, fn? =>
    if type?.isSome then .error "duplicate field type"
    else do readToolCallFields rest id? (some (← decodeString v)) fn?
  | ("function", v) :: rest, id?, type?, fn? =>
    if fn?.isSome then .error "duplicate field function"
    else do readToolCallFields rest id? type? (some (← decodeFunctionCall v))
  | _ :: rest, id?, type?, fn? => readToolCallFields rest id? type? fn?

def decodeToolCall : Json → Except String ToolCall
  | .obj kvs => readToolCallFields kvs none none none
  | _ => .error "invalid type: expected struct ToolCall"

/-- Field loop of the derived `Message` deserializer.  The two Rust fields
that share the wire name `content` both produce a match arm for that key in
the generated field matcher; the arm for `multi_content` is unreachable (the
source carries `#![allow(unreachable_patterns)]` for exactly this), so the
key `content` always deserializes into the string-content slot and the
multipart slot is never populated. -/
def readMessageFields :
    List (String × Json) → Option Role → Option (Option String) →
    Option (Option (List ToolCall)) → Option (Option String) → Option (Option String) →
    Except String Message
  | [], role?, content?, toolCalls?, tcid?, name? =>
    match role? with
    | none => .error "missing field role"
    | some r =>
      .ok ⟨r, content?.getD none, none, toolCalls?.getD none, tcid?.getD none, name?.getD none⟩
  | ("role", v) :: rest, role?, content?, toolCalls?, tcid?, name? =>
    if role?.isSome then .error "duplicate field role"
    else do readMessageFields rest (some (← decodeRole v)) content? toolCalls? tcid? name?
  | ("content", v) :: rest, role?, content?, toolCalls?, tcid?, name? =>
    if content?.isSome then .error "duplicate field content"
    else do readMessageFields rest role? (some (← decodeOptString v)) toolCalls? tcid? name?
  | ("tool_calls", v) :: rest, role?, content?, toolCalls?, tcid?, name? =>
    if toolCalls?.isSome then .error "duplicate field tool_calls"
    else do
      readMessageFields rest role? content? (some (← decodeOpt (decodeList decodeToolCall) v))
        tcid? name?
  | ("tool_call_id", v) :: rest, role?, content?, toolCalls?, tcid?, name? =>
    if tcid?.isSome then .error "duplicate field tool_call_id"
    else do readMessageFields rest role? content? toolCalls? (some (← decodeOptString v)) name?
  | ("name", v) :: rest, role?, content?, toolCalls?, tcid?, name? =>
    if name?.isSome then .error "duplicate field name"
    else do readMessageFields rest role? content? toolCalls? tcid? (some (← decodeOptString v))
  | _ :: rest, role?, content?, toolCalls?, tcid?, name? =>
    readMessageFields rest role? content? toolCalls? tcid? name?

def deserializeMessage : Json → Except String Message
  | .obj kvs => readMessageFields kvs none none none none none
  | _ => .error "invalid type: expected struct Message"

def readChunkFields :
    List (String × Json) → Option (Option Role) → Option (Option String) →
    Except String StreamChunkMessage
  | [], role?, content? => .ok ⟨role?.getD none, content?.getD none⟩
  | ("role", v) :: rest, role?, content? =>
    if role?.isSome then .error "duplicate field role"
    else do readChunkFields rest (some (← decodeOptRole v)) content?
  | ("content", v) :: rest, role?, content? =>
    if content?.isSome then .error "duplicate field content"
    else do readChunkFields rest role? (some (← decodeOptString v))
  | _ :: rest, role?, content? => readChunkFields rest role? content?

def decodeStreamChunkMessage : Json → Except String StreamChunkMessage
  | .obj kvs => readChunkFields kvs none none
  | _ => .error "invalid type: expected struct StreamChunkMessage"

def readStreamChoiceFields :
    List (String × Json) → Option Nat → Option StreamChunkMessage → Except String StreamChoice
  | [], index?, delta? =>
    match index?, delta? with
    | some i, some d => .ok ⟨i, d⟩
    | none, _ => .error "missing field index"
    | _, none => .error "missing field delta"
  | ("index", v) :: rest, index?, delta? =>
    if index?.isSome then .error "duplicate field index"
    else do readStreamChoiceFields rest (some (← decodeBoundedNat (2 ^ 32) v)) delta?
  | ("delta", v) :: rest, index?, delta? =>
    if delta?.isSome then .error "duplicate field delta"
    else do readStreamChoiceFields rest index? (some (← decodeStreamChunkMessage v))
  | _ :: rest, index?, delta? => readStreamChoiceFields rest index? delta?

def decodeStreamChoice : Json → Except String StreamChoice
  | .obj kvs => readStreamChoiceFields kvs none none
  | _ => .error "invalid type: expected struct StreamChoice"

def readStreamResponseFields :
    List (String × Json) → Option String → Option Nat → Option String →
    Option (List StreamChoice) → Except String CompletionStreamResponse
  | [], id?, created?, model?, choices? =>
    match id?, created?, model?, choices? with
    | some i, some cr, some m, some cs => .ok ⟨i, cr, m, cs⟩
    | none, _, _, _ => .error "missing field id"
    | _, none, _, _ => .error "missing field created"
    | _, _, none, _ => .error "missing field model"
    | _, _, _, none => .error "missing field choices"
  | ("id", v) :: rest, id?, created?, model?, choices? =>
    if id?.isSome then .error "duplicate field id"
    else do readStreamResponseFields rest (some (← decodeString v)) created? model? choices?
  | ("created", v) :: rest, id?, created?, model?, choices? =>
    if created?.isSome then .error "duplicate field created"
    else do
      readStreamResponseFields rest id? (some (← decodeBoundedNat (2 ^ 64) v)) model? choices?
  | ("model", v) :: rest, id?, created?, model?, choices? =>
    if model?.isSome then .error "duplicate field model"
    else do readStreamResponseFields rest id? created? (some (← decodeString v)) choices?
  | ("choices", v) :: rest, id?, created?, model?, choices? =>
    if choices?.isSome then .error "duplicate field choices"
    else do
      readStreamResponseFields rest id? created? model?
        (some (← decodeList decodeStreamChoice v))
  | _ :: rest, id?, created?, model?, choices? =>
    readStreamResponseFields rest id? created? model? choices?

def decodeCompletionStreamResponse : Json → Except String CompletionStreamResponse
  | .obj kvs => readStreamResponseFields kvs none none none none
  | _ => .error "invalid type: expected struct CompletionStreamResponse"

def readFunctionDefinitionFields :
    List (String × Json) → Option String → Option String → Option Json →
    Except String FunctionDefinition
  | [], name?, desc?, params? =>
    match name?, desc?, params? with
    | some n, some d, some p => .ok ⟨n, d, p⟩
    | none, _, _ => .error "missing field name"
    | _, none, _ => .error "missing field description"
    | _, _, none => .error "missing field parameters"
  | ("name", v) :: rest, name?, desc?, params? =>
    if name?.isSome then .error "duplicate field name"
    else do readFunctionDefinitionFields rest (some (← decodeString v)) desc? params?
  | ("description", v) :: rest, name?, desc?, params? =>
    if desc?.isSome then .error "duplicate field description"
    else do readFunctionDefinitionFields rest name? (some (← decodeString v)) params?
  | ("parameters", v) :: rest, name?, desc?, params? =>
    if params?.isSome then .error "duplicate field parameters"
    else readFunctionDefinitionFields rest name? desc? (some v)
  | _ :: rest, name?, desc?, params? => readFunctionDefinitionFields rest name? desc? params?

def decodeFunctionDefinition : Json → Except String FunctionDefinition
  | .obj kvs => readFunctionDefinitionFields kvs none none none
  | _ => .error "invalid type: expected struct FunctionDefinition"

def readToolFields :
    List (String × Json) → Option String → Option FunctionDefinition → Except String Tool
  | [], type?, fn? =>
    match type?, fn? with
    | some t, some f => .ok ⟨t, f⟩
    | none, _ => .error "missing field type"
    | _, none => .error "missing field function"
  | ("type", v) :: rest, type?, fn? =>
    if type?.isSome then .error "duplicate field type"
    else do readToolFields rest (some (← decodeString v)) fn?
  | ("function", v) :: rest, type?, fn? =>
    if fn?.isSome then .error "duplicate field function"
    else do readToolFields rest type? (some (← decodeFunctionDefinition v))
  | _ :: rest, type?, fn? => readToolFields rest type? fn?

/-- Model of `serde_json::from_value::<Tool>` on an already-parsed value. -/
def decodeTool : Json → Except String Tool
  | .obj kvs => readToolFields kvs none none
  | _ => .error "invalid type: expected struct Tool"

/-! ## Capability registry (`tools_registry.rs`) -/

/-- A registered capability (the object behind `Arc<dyn Tool>`): its
self-reported description, callback policy, and execution behaviour, the
latter modelled as a pure function from parsed arguments to the tool's
result.  (Named `ToolImpl` because the wire DTO already takes the name
`Tool`; in Rust the two live in different modules.) -/
structure ToolImpl where
  name : String
  description : Json
  tool_callback : Bool
  execute_tool : Json → Except String String

/-- Errors of the orchestration layer (`anyhow` messages in the source,
kept structured here). -/
inductive AgentError where
  | noToolRegistry
  | promptError (e : String)
  | toolNotFound (name : String)
  | invalidArguments (raw : String)
  | toolFailed (e : String)
  | maxIterations (n : Nat)
deriving DecidableEq, Repr

/-- `ToolRegistry`: the name-keyed `HashMap`, modelled as an association
list (first match wins on lookup). -/
structure ToolRegistry where
  tools : List (String × ToolImpl)

/-- `HashMap::get` on the registry. -/
def ToolRegistry.get (reg : ToolRegistry) (tool_name : String) : Option ToolImpl :=
  (reg.tools.find? (fun p => p.1 = tool_name)).map (fun p => p.2)

/-- `check_tool_callback`: callback policy of a registered capability,
`Tool not found` error otherwise. -/
def ToolRegistry.check_tool_callback (reg : ToolRegistry) (tool_name : String) :
    Except AgentError Bool :=
  match reg.get tool_name with
  | some tool => .ok tool.tool_callback
  | none => .error (.toolNotFound tool_name)

/-- `execute`: dispatch to a registered capability; the capability's own
failure is propagated (wrapped as `toolFailed`). -/
def ToolRegistry.execute (reg : ToolRegistry) (tool_name : String) (args : Json) :
    Except AgentError String :=
  match reg.get tool_name with
  | some tool =>
    match tool.execute_tool args with
    | .ok r => .ok r
    | .error e => .error (.toolFailed e)
  | none => .error (.toolNotFound tool_name)

/-- `get_tool_definitions`: decode each registered capability's self-reported
description as a wire `Tool`, silently dropping (`.ok()` + `filter_map`) the
ones that fail to decode. -/
def ToolRegistry.get_tool_definitions (reg : ToolRegistry) : List Tool :=
  reg.tools.filterMap (fun p => (decodeTool p.2.description).toOption)

/-! ## Stream fragment pipeline (`request.rs`, `send_request_stream`) -/

/-- Processing of one SSE frame payload by the `map` stage composed with the
`filter_map` stage of `send_request_stream`: `none` means the frame
contributes no item to the produced sequence. -/
def process_frame (data : String) : Option (Except String String) :=
  if data = "[DONE]" then none
  else
    match Json.parse data with
    | none => some (.error "Failed to parse JSON")
    | some j =>
      match decodeCompletionStreamResponse j with
      | .error _ => some (.error "Failed to parse JSON")
      | .ok parsed =>
        match parsed.choices.head?.bind (fun c => c.delta.content) with
        | some text => some (.ok text)
        | none => none

/-- The fragment sequence `send_request_stream` produces from a sequence of
SSE frame payloads (the HTTP/SSE transport itself is outside the model). -/
def send_request_stream (frames : List String) : List (Except String String) :=
  frames.filterMap process_frame

/-! ## Agent and `prompt` (`agents.rs`) -/

structure Agent where
  model : String
  url : String
  api_key : String
  system_prompt : String
  temperature : F32
  tool_registry : Option ToolRegistry
  top_p : F32

/-- The system-role message `prompt` builds from the agent's configured
system prompt. -/
def systemMessage (p : String) : Message :=
  ⟨.SYSTEM, some p, none, none, none, none⟩

/-- The `CompletionRequest` that `prompt` issues: the system message is
inserted at index 0 of the history, tool definitions come from the agent's
registry when present, and streaming is off. -/
def prompt_request (agent : Agent) (history : List Message) : CompletionRequest :=
  { model := agent.model
    messages := List.insertIdx 0 (systemMessage agent.system_prompt) history
    tools := agent.tool_registry.map ToolRegistry.get_tool_definitions
    temperature := agent.temperature
    top_p := some agent.top_p
    stream := some false }

/-- `prompt`'s handling of the completion response (`agents.rs:173-189`):
empty choices is an error; a missing content on the first choice is replaced
by the empty string (`unwrap_or_default`); tool calls are passed through. -/
def prompt_extract (response : CompletionResponse) :
    Except AgentError (String × Option (List ToolCall)) :=
  match response.choices.head? with
  | none => .error (.promptError "No choices in response")
  | some choice => .ok (choice.message.content.getD "", choice.message.tool_calls)

/-! ## The orchestration loop (`prompt_with_tools`) -/

/-- The remote model as an oracle: the outcome of the `i`-th completion
query of a run — either a propagated transport/protocol error, or the
`(assistant text, optional tool calls)` pair `prompt` extracts. -/
abbrev Script := Nat → Except String (String × Option (List ToolCall))

/-- The assistant-role message the loop appends before executing a batch. -/
def assistantMessage (response : String) (calls : List ToolCall) : Message :=
  ⟨.ASSISTANT, some response, none, some calls, none, none⟩

/-- The tool-role result message the loop appends after a callback. -/
def toolMessage (call : ToolCall) (result : String) : Message :=
  ⟨.TOOL, some result, none, none, some call.id, some call.function.name⟩

/-- Outcome of processing one batch of tool calls (the inner `for call in
calls` loop of `prompt_with_tools`). -/
inductive BatchStep where
  | shortCircuit (result : String) (history : List Message) (execs : List (String × Json))
  | failed (e : AgentError) (history : List Message) (execs : List (String × Json))
  | finished (history : List Message) (execs : List (String × Json)) (should_loop : Bool)

/-- The inner batch loop: for each call in order, look up the callback
policy (unknown name aborts), parse the argument string as JSON (malformed
aborts), execute (a tool error aborts), then either short-circuit with the
result (callback policy false) or append a tool-role message and continue.
`execs` records every capability invocation. -/
def run_calls (reg : ToolRegistry) :
    List ToolCall → List Message → List (String × Json) → Bool → BatchStep
  | [], history, execs, should_loop => .finished history execs should_loop
  | call :: rest, history, execs, _should_loop =>
    match reg.get call.function.name with
    | none => .failed (.toolNotFound call.function.name) history execs
    | some tool =>
      match Json.parse call.function.arguments with
      | none => .failed (.invalidArguments call.function.arguments) history execs
      | some args =>
        match tool.execute_tool args with
        | .error e => .failed (.toolFailed e) history (execs ++ [(call.function.name, args)])
        | .ok result =>
          if !tool.tool_callback then
            .shortCircuit result history (execs ++ [(call.function.name, args)])
          else
            run_calls reg rest (history ++ [toolMessage call result])
              (execs ++ [(call.function.name, args)]) true

/-- Result of a `prompt_with_tools` run, with the internal state the claims
speak about: final history, number of completion queries issued, and the
trace of capability invocations. -/
structure RunResult where
  result : Except AgentError String
  history : List Message
  queries : Nat
  execs : List (String × Json)

def MAX_ITERATIONS : Nat := 15

/-- The bounded iteration loop of `prompt_with_tools`, with `fuel` the
remaining iterations and `k` the index of the next completion query. -/
def run_loop (reg : ToolRegistry) (script : Script) :
    Nat → Nat → List Message → Nat → List (String × Json) → RunResult
  | 0, _, history, queries, execs =>
    ⟨.error (.maxIterations MAX_ITERATIONS), history, queries, execs⟩
  | fuel + 1, k, history, queries, execs =>
    match script k with
    | .error e => ⟨.error (.promptError e), history, queries + 1, execs⟩
    | .ok (response, none) => ⟨.ok response, history, queries + 1, execs⟩
    | .ok (response, some calls) =>
      match run_calls reg calls (history ++ [assistantMessage response calls]) execs false with
      | .shortCircuit r h e => ⟨.ok r, h, queries + 1, e⟩
      | .failed err h e => ⟨.error err, h, queries + 1, e⟩
      | .finished h e should_loop =>
        if should_loop then run_loop reg script fuel (k + 1) h (queries + 1) e
        else ⟨.ok response, h, queries + 1, e⟩

/-- `prompt_with_tools`: fails at once without a registry, otherwise runs
the loop for at most `MAX_ITERATIONS` iterations. -/
def prompt_with_tools (tool_registry : Option ToolRegistry) (script : Script)
    (history : List Message) : RunResult :=
  match tool_registry with
  | none => ⟨.error .noToolRegistry, history, 0, []⟩
  | some reg => run_loop reg script MAX_ITERATIONS 0 history 0 []

/-! ## Helper notions for the loop claims -/

/-- A call that the batch loop processes without aborting or
short-circuiting: its capability is registered with callback policy `true`,
its argument string parses, and its execution succeeds. -/
def good_call (reg : ToolRegistry) (c : ToolCall) : Bool :=
  match reg.get c.function.name with
  | none => false
  | some tool =>
    tool.tool_callback &&
      (match Json.parse c.function.arguments with
       | none => false
       | some args =>
         match tool.execute_tool args with
         | .ok _ => true
         | .error _ => false)

/-- The result string a good call's capability produces. -/
def call_result (reg : ToolRegistry) (c : ToolCall) : String :=
  match reg.get c.function.name with
  | some tool =>
    match Json.parse c.function.arguments with
    | some args =>
      match tool.execute_tool args with
      | .ok r => r
      | .error _ => ""
    | none => ""
  | none => ""

/-- The invocation-trace entry of a call whose arguments parse. -/
def call_exec (c : ToolCall) : String × Json :=
  (c.function.name, (Json.parse c.function.arguments).getD .null)

/-- The tool-role message the loop appends for a good call. -/
def call_tool_msg (reg : ToolRegistry) (c : ToolCall) : Message :=
  toolMessage c (call_result reg c)

/-- Number of members of a serialized object carrying a given key. -/
def countKey (k : String) (kvs : List (String × Json)) : Nat :=
  kvs.countP (fun p => p.1 = k)

/-! ## Concrete instances used by witnesses and counterexamples -/

/-- A capability with callback policy `false` that returns a fixed result. -/
def finalTool : ToolImpl := ⟨"final", .null, false, fun _ => .ok "RESULT"⟩

def regFinal : ToolRegistry := ⟨[("final", finalTool)]⟩

def callFinal : ToolCall := ⟨"call_1", "function", ⟨"final", "\x7b\x7d"⟩⟩

def callOther : ToolCall := ⟨"call_2", "function", ⟨"final", "\x7b\x7d"⟩⟩

def scriptFinal : Script := fun _ => .ok ("thinking", some [callFinal, callOther])

/-- A capability with callback policy `true`. -/
def echoTool : ToolImpl := ⟨"echo", .null, true, fun _ => .ok "hi"⟩

def regEcho : ToolRegistry := ⟨[("echo", echoTool)]⟩

def callEcho : ToolCall := ⟨"call_e", "function", ⟨"echo", "\x7b\x7d"⟩⟩

def scriptEcho : Script := fun _ => .ok ("loop", some [callEcho])

/-- A call naming a capability that is not registered. -/
def callGhost : ToolCall := ⟨"call_g", "function", ⟨"ghost", "\x7b\x7d"⟩⟩

def scriptGhost : Script := fun _ => .ok ("resp", some [callEcho, callGhost, callEcho])

/-- A capability whose execution returns an error value. -/
def failTool : ToolImpl := ⟨"boom", .null, true, fun _ => .error "exploded"⟩

def regBoom : ToolRegistry := ⟨[("echo", echoTool), ("boom", failTool)]⟩

def callBoom : ToolCall := ⟨"call_b", "function", ⟨"boom", "\x7b\x7d"⟩⟩

def scriptBoom : Script := fun _ => .ok ("resp2", some [callEcho, callBoom])

def scriptEmptyCalls : Script := fun _ => .ok ("done", some [])

/-- A completion response whose single choice's message has no content. -/
def choiceNoContent : CompletionChoice := ⟨0, ⟨.ASSISTANT, none, none, none, none, none⟩⟩

def respNoContent : CompletionResponse := ⟨"id0", 0, "m", [choiceNoContent]⟩

/-- A well-formed streamed delta frame carrying the content "hi". -/
def hiFrame : String :=
  "\x7b\"id\":\"1\",\"created\":1,\"model\":\"m\",\"choices\":[\x7b\"index\":0,\"delta\":\x7b\"content\":\"hi\"\x7d\x7d]\x7d"

/-- A frame payload that is not valid JSON. -/
def badFrame : String := "\x7boops"

/-- A message whose multipart content is a two-block sequence (one text
block, one image block) and whose string content is absent. -/
def twoBlockMessage : Message :=
  ⟨.USER, none,
   some [⟨"text", some "Describe this image", none⟩,
         ⟨"image_url", none, some ⟨"http://x/img.png"⟩⟩],
   none, none, none⟩

/-! ## Batch-loop lemmas -/

/-- Processing a batch that starts with good calls appends exactly their
tool-role messages and invocation records, sets the callback flag, and
continues with the remaining calls. -/
theorem run_calls_good_append (reg : ToolRegistry) (good : List ToolCall)
    (h : ∀ c ∈ good, good_call reg c = true) :
    ∀ (tail : List ToolCall) (history : List Message) (execs : List (String × Json)) (sl : Bool),
    run_calls reg (good ++ tail) history execs sl =
      run_calls reg tail (history ++ good.map (call_tool_msg reg))
        (execs ++ good.map call_exec) (sl || !good.isEmpty) := by
  induction good with
  | nil => intro tail history execs sl; simp
  | cons c cs ih =>
    intro tail history execs sl
    have hc := h c (List.mem_cons_self c cs)
    cases hget : reg.get c.function.name with
    | none => simp [good_call, hget] at hc
    | some tool =>
      cases hparse : Json.parse c.function.arguments with
      | none => simp [good_call, hget, hparse] at hc
      | some args =>
        cases hexec : tool.execute_tool args with
        | error e => simp [good_call, hget, hparse, hexec] at hc
        | ok r =>
          have hcb : tool.tool_callback = true := by
            simpa [good_call, hget, hparse, hexec] using hc
          have hres : call_result reg c = r := by simp [call_result, hget, hparse, hexec]
          have hex : call_exec c = (c.function.name, args) := by simp [call_exec, hparse]
          rw [List.cons_append]
          simp only [run_calls, hget, hparse, hexec, hcb]
          rw [ih (fun c' hc' => h c' (List.mem_cons_of_mem _ hc'))]
          simp [call_tool_msg, hres, hex, List.append_assoc]

/-! ## Claim theorems -/

/-- Claim C1: in any iteration of the `prompt_with_tools` loop whose batch's
first tool call names a registered capability with callback policy `false`
(and whose arguments parse and whose execution yields a result string), the
loop returns exactly that capability's result string as the final answer,
records exactly one capability invocation, issues exactly one further
completion query (this iteration's), and appends no tool-role message for
the remaining calls of the batch. -/
theorem claim_C1_short_circuit_first_call (reg : ToolRegistry) (script : Script)
    (n k queries : Nat) (history : List Message) (execs : List (String × Json))
    (r : String) (c : ToolCall) (rest : List ToolCall) (tool : ToolImpl) (args : Json)
    (res : String)
    (hscript : script k = .ok (r, some (c :: rest)))
    (hget : reg.get c.function.name = some tool)
    (hcb : tool.tool_callback = false)
    (hargs : Json.parse c.function.arguments = some args)
    (hexec : tool.execute_tool args = .ok res) :
    run_loop reg script (n + 1) k history queries execs =
      ⟨.ok res, history ++ [assistantMessage r (c :: rest)], queries + 1,
       execs ++ [(c.function.name, args)]⟩ := by
  simp [run_loop, hscript, run_calls, hget, hargs, hexec, hcb]

/-- Witness for C1: a concrete two-call batch whose first call's capability
has callback policy `false`. -/
theorem claim_C1_witness :
    run_loop regFinal scriptFinal 15 0 [] 0 [] =
      ⟨.ok "RESULT", [] ++ [assistantMessage "thinking" [callFinal, callOther]], 0 + 1,
       [] ++ [("final", .obj [])]⟩ :=
  claim_C1_short_circuit_first_call regFinal scriptFinal 14 0 0 [] [] "thinking" callFinal
    [callOther] finalTool (.obj []) "RESULT" rfl rfl rfl rfl rfl

/-- Claim C9: in any iteration of the loop whose model response carries a
present-but-empty tool-call list, the loop appends an assistant message
recording the empty list, executes no capability, issues no further
completion query, and returns that response's assistant text. -/
theorem claim_C9_empty_tool_call_list (reg : ToolRegistry) (script : Script)
    (n k queries : Nat) (history : List Message) (execs : List (String × Json)) (r : String)
    (hscript : script k = .ok (r, some [])) :
    run_loop reg script (n + 1) k history queries execs =
      ⟨.ok r, history ++ [assistantMessage r []], queries + 1, execs⟩ := by
  simp [run_loop, hscript, run_calls]

/-- Witness for C9: a concrete response with `Some []` tool calls. -/
theorem claim_C9_witness :
    run_loop regEcho scriptEmptyCalls 15 0 [] 0 [] =
      ⟨.ok "done", [] ++ [assistantMessage "done" []], 0 + 1, []⟩ :=
  claim_C9_empty_tool_call_list regEcho scriptEmptyCalls 14 0 0 [] [] "done" rfl

/-- Claim C4: if a batch contains a call naming an unregistered capability
(preceded only by good callback calls), the run aborts with the
capability-not-found error, records no invocation for that call or the later
ones, and appends tool-role messages only for the preceding good calls. -/
theorem claim_C4_unknown_capability_aborts (reg : ToolRegistry) (script : Script)
    (n k queries : Nat) (history : List Message) (execs : List (String × Json))
    (r : String) (good : List ToolCall) (bad : ToolCall) (rest : List ToolCall)
    (hscript : script k = .ok (r, some (good ++ bad :: rest)))
    (hgood : ∀ c ∈ good, good_call reg c = true)
    (hbad : reg.get bad.function.name = none) :
    run_loop reg script (n + 1) k history queries execs =
      ⟨.error (.toolNotFound bad.function.name),
       (history ++ [assistantMessage r (good ++ bad :: rest)]) ++ good.map (call_tool_msg reg),
       queries + 1,
       execs ++ good.map call_exec⟩ := by
  simp only [run_loop, hscript]
  rw [run_calls_good_append reg good hgood]
  simp [run_calls, hbad]

/-- Witness for C4: a batch `[echo, ghost, echo]` where `ghost` is not
registered. -/
theorem claim_C4_witness :
    run_loop regEcho scriptGhost 15 0 [] 0 [] =
      ⟨.error (.toolNotFound "ghost"),
       ([] ++ [assistantMessage "resp" [callEcho, callGhost, callEcho]]) ++
         [callEcho].map (call_tool_msg regEcho),
       0 + 1,
       [] ++ [callEcho].map call_exec⟩ :=
  claim_C4_unknown_capability_aborts regEcho scriptGhost 14 0 0 [] [] "resp" [callEcho]
    callGhost [callEcho] rfl
    (fun c hc => by rw [List.mem_singleton.mp hc]; rfl) rfl

/-- Claim C10: if a registered capability's execution returns an error value
(preceding calls being good), the run aborts propagating that error: the
result is that error, no tool-role message is appended for the failing call
or later ones, and no short-circuit final answer is produced. -/
theorem claim_C10_execution_error_propagates (reg : ToolRegistry) (script : Script)
    (n k queries : Nat) (history : List Message) (execs : List (String × Json))
    (r : String) (good : List ToolCall) (bad : ToolCall) (rest : List ToolCall)
    (tool : ToolImpl) (args : Json) (e : String)
    (hscript : script k = .ok (r, some (good ++ bad :: rest)))
    (hgood : ∀ c ∈ good, good_call reg c = true)
    (hbadget : reg.get bad.function.name = some tool)
    (hargs : Json.parse bad.function.arguments = some args)
    (hexec : tool.execute_tool args = .error e) :
    run_loop reg script (n + 1) k history queries execs =
      ⟨.error (.toolFailed e),
       (history ++ [assistantMessage r (good ++ bad :: rest)]) ++ good.map (call_tool_msg reg),
       queries + 1,
       (execs ++ good.map call_exec) ++ [(bad.function.name, args)]⟩ := by
  simp only [run_loop, hscript]
  rw [run_calls_good_append reg good hgood]
  simp [run_calls, hbadget, hargs, hexec]

/-- Witness for C10: a batch `[echo, boom]` where `boom`'s execution
fails. -/
theorem claim_C10_witness :
    run_loop regBoom scriptBoom 15 0 [] 0 [] =
      ⟨.error (.toolFailed "exploded"),
       ([] ++ [assistantMessage "resp2" [callEcho, callBoom]]) ++
         [callEcho].map (call_tool_msg regBoom),
       0 + 1,
       ([] ++ [callEcho].map call_exec) ++ [("boom", .obj [])]⟩ :=
  claim_C10_execution_error_propagates regBoom scriptBoom 14 0 0 [] [] "resp2" [callEcho]
    callBoom [] failTool (.obj []) "exploded" rfl
    (fun c hc => by rw [List.mem_singleton.mp hc]; rfl) rfl rfl rfl

/-- If every iteration in the remaining window responds with a non-empty
batch of good callback calls, the loop exhausts its fuel with the
iteration-limit error after issuing exactly one query per iteration. -/
theorem run_loop_all_good_exhausts (reg : ToolRegistry) (script : Script) :
    ∀ (fuel k : Nat) (history : List Message) (queries : Nat) (execs : List (String × Json)),
    (∀ i, k ≤ i → i < k + fuel →
      ∃ r calls, script i = .ok (r, some calls) ∧ calls ≠ [] ∧
        ∀ c ∈ calls, good_call reg c = true) →
    (run_loop reg script fuel k history queries execs).result =
        .error (.maxIterations MAX_ITERATIONS) ∧
    (run_loop reg script fuel k history queries execs).queries = queries + fuel := by
  intro fuel
  induction fuel with
  | zero => intro k history queries execs _; exact ⟨rfl, rfl⟩
  | succ n ih =>
    intro k history queries execs h
    obtain ⟨r, calls, hscript, hne, hgood⟩ :=
      h k (Nat.le_refl k) (Nat.lt_add_of_pos_right (Nat.succ_pos n))
    have hempty : calls.isEmpty = false := by
      cases calls with
      | nil => exact absurd rfl hne
      | cons a l => rfl
    simp only [run_loop, hscript]
    rw [show calls = calls ++ [] from (List.append_nil calls).symm,
        run_calls_good_append reg calls hgood]
    simp only [run_calls, hempty, Bool.false_or, Bool.not_false, if_true]
    have := ih (k + 1) (history ++ [assistantMessage r (calls ++ [])] ++
        calls.map (call_tool_msg reg)) (queries + 1) (execs ++ calls.map call_exec)
      (fun i h1 h2 => h i (Nat.le_of_succ_le h1) (by omega))
    exact ⟨this.1, by rw [this.2]; omega⟩

/-- Claim C2: if each of the first 15 model responses carries a non-empty
batch of tool calls whose capabilities are all registered with callback
policy `true` (arguments parsing and executions succeeding),
`prompt_with_tools` fails with the iteration-limit error after issuing
exactly 15 completion queries, and never a 16th. -/
theorem claim_C2_iteration_limit (reg : ToolRegistry) (script : Script)
    (history : List Message)
    (h : ∀ i, i < MAX_ITERATIONS →
      ∃ r calls, script i = .ok (r, some calls) ∧ calls ≠ [] ∧
        ∀ c ∈ calls, good_call reg c = true) :
    (prompt_with_tools (some reg) script history).result =
        .error (.maxIterations MAX_ITERATIONS) ∧
    (prompt_with_tools (some reg) script history).queries = MAX_ITERATIONS := by
  have := run_loop_all_good_exhausts reg script MAX_ITERATIONS 0 history 0 []
    (fun i _ h2 => h i (by simpa using h2))
  exact ⟨this.1, by simpa using this.2⟩

/-- Witness for C2: a script that always requests the callback capability
`echo`. -/
theorem claim_C2_witness :
    (prompt_with_tools (some regEcho) scriptEcho []).result =
        .error (.maxIterations MAX_ITERATIONS) ∧
    (prompt_with_tools (some regEcho) scriptEcho []).queries = MAX_ITERATIONS :=
  claim_C2_iteration_limit regEcho scriptEcho []
    (fun _ _ => ⟨"loop", [callEcho], rfl, List.cons_ne_nil _ _,
      fun c hc => by rw [List.mem_singleton.mp hc]; rfl⟩)

/-- Claim C3: for every history, the request `prompt` issues has as its
first message a system-role message whose content is the agent's configured
system prompt, followed by the history unchanged and in order — even when
the history already contains a system-role entry (duplication, not
replacement). -/
theorem claim_C3_system_prompt_prepended (agent : Agent) (history : List Message) :
    (prompt_request agent history).messages =
      systemMessage agent.system_prompt :: history ∧
    (systemMessage agent.system_prompt).role = .SYSTEM ∧
    (systemMessage agent.system_prompt).content = some agent.system_prompt := by
  refine ⟨?_, rfl, rfl⟩
  simp [prompt_request]

/-- Claim C6 counterexample: a response whose single choice's message has no
content makes `prompt` (the extraction step of `agents.rs:173-189`) return
`Ok` with the empty-string substitute (`unwrap_or_default`), not a
missing-content protocol error. -/
theorem claim_C6_counterexample :
    respNoContent.choices.map (fun c => c.message.content) = [none] ∧
    prompt_extract respNoContent = .ok ("", none) :=
  ⟨rfl, rfl⟩

/-- Claim C6 amended: for every completion response whose choices list is
non-empty but whose first choice's message carries no content, `prompt`
continues with the empty string as substitute value (returning it together
with the choice's tool calls) instead of aborting; only an empty choices
list aborts. -/
theorem claim_C6_missing_content_substituted (response : CompletionResponse)
    (choice : CompletionChoice) (rest : List CompletionChoice)
    (hchoices : response.choices = choice :: rest)
    (hcontent : choice.message.content = none) :
    prompt_extract response = .ok ("", choice.message.tool_calls) := by
  simp [prompt_extract, hchoices, hcontent]

/-- Witness for the amended C6. -/
theorem claim_C6_witness :
    prompt_extract respNoContent = .ok ("", choiceNoContent.message.tool_calls) :=
  claim_C6_missing_content_substituted respNoContent choiceNoContent [] rfl rfl

/-- `filterMap` keeps exactly the elements on which the function fires. -/
theorem filterMap_length_countP {α β : Type} (f : α → Option β) (l : List α) :
    (l.filterMap f).length = l.countP (fun a => (f a).isSome) := by
  induction l with
  | nil => rfl
  | cons a l ih =>
    cases h : f a <;> simp [List.filterMap_cons, h, List.countP_cons, ih]

/-- Claim C8: `get_tool_definitions` is total (it returns a plain list, never
an error), its members are exactly the decoded schema forms of the
registered capabilities whose self-reported description decodes as the wire
`Tool` shape, and its length counts exactly those capabilities — each
capability with a malformed description is silently omitted rather than
aborting the listing. -/
theorem claim_C8_definitions_listing (reg : ToolRegistry) (d : Tool) :
    (d ∈ reg.get_tool_definitions ↔
      ∃ p ∈ reg.tools, (decodeTool p.2.description).toOption = some d) ∧
    reg.get_tool_definitions.length =
      reg.tools.countP (fun p => (decodeTool p.2.description).toOption.isSome) := by
  constructor
  · simp [ToolRegistry.get_tool_definitions, List.mem_filterMap]
  · exact filterMap_length_countP _ _

/-- Claim C5 counterexample: the pipeline does not terminate at the first
`[DONE]` sentinel — a content frame placed after a `[DONE]` frame still
yields its fragment (the sentinel is merely filtered out, frame by
frame). -/
theorem claim_C5_counterexample :
    send_request_stream ["[DONE]", hiFrame] = [.ok "hi"] := by
  rfl

/-- Claim C5 amended: the fragment sequence is finite (at most one item per
frame); a `[DONE]` frame yields nothing but does not terminate the
processed sequence — frames after it are still processed (so termination at
the first `[DONE]` holds only when the sentinel is the final frame); a
parsed delta without content (role-only, contentless, or with empty
choices) yields zero fragments; a parsed delta with content yields exactly
one text fragment; a non-sentinel frame that fails to parse yields exactly
one failure item; and each frame's contribution leaves the fragments
produced before it unaffected. -/
theorem claim_C5_stream_pipeline :
    (∀ frames : List String, (send_request_stream frames).length ≤ frames.length) ∧
    (∀ (frames : List String) (f : String),
      send_request_stream (frames ++ [f]) =
        send_request_stream frames ++ (process_frame f).toList) ∧
    process_frame "[DONE]" = none ∧
    (∀ (s : String) (j : Json) (parsed : CompletionStreamResponse),
      Json.parse s = some j → decodeCompletionStreamResponse j = .ok parsed →
      parsed.choices.head?.bind (fun c => c.delta.content) = none →
      process_frame s = none) ∧
    (∀ (s : String) (j : Json) (parsed : CompletionStreamResponse) (text : String),
      s ≠ "[DONE]" → Json.parse s = some j →
      decodeCompletionStreamResponse j = .ok parsed →
      parsed.choices.head?.bind (fun c => c.delta.content) = some text →
      process_frame s = some (.ok text)) ∧
    (∀ s : String, s ≠ "[DONE]" → Json.parse s = none →
      process_frame s = some (.error "Failed to parse JSON")) := by
  refine ⟨?_, ?_, rfl, ?_, ?_, ?_⟩
  · intro frames
    exact List.length_filterMap_le _ _
  · intro frames f
    rw [send_request_stream, send_request_stream, List.filterMap_append]
    cases h : process_frame f <;> simp [h]
  · intro s j parsed hp hd hc
    by_cases hs : s = "[DONE]"
    · simp [process_frame, hs]
    · simp [process_frame, hs, hp, hd, hc]
  · intro s j parsed text hs hp hd hc
    simp [process_frame, hs, hp, hd, hc]
  · intro s hs hp
    simp [process_frame, hs, hp]

/-- Witness for the amended C5: a content frame yields its fragment, a
malformed frame yields one failure item, and a frame's contribution appends
to the previously produced fragments. -/
theorem claim_C5_witness :
    process_frame hiFrame = some (.ok "hi") ∧
    process_frame badFrame = some (.error "Failed to parse JSON") ∧
    send_request_stream ([badFrame] ++ [hiFrame]) =
      send_request_stream [badFrame] ++ (process_frame hiFrame).toList :=
  ⟨claim_C5_stream_pipeline.2.2.2.2.1 hiFrame _ _ "hi" (by decide) rfl rfl rfl,
   claim_C5_stream_pipeline.2.2.2.2.2 badFrame (by decide) rfl,
   claim_C5_stream_pipeline.2.1 [badFrame] hiFrame⟩

/-- Claim C7 counterexample: serializing the two-block multipart message and
deserializing does not round-trip — it fails, because the multipart wire key
`content` is matched by the string-content field of the deserializer (the
shared-name arm for `multi_content` is unreachable), and an array is not a
string. -/
theorem claim_C7_counterexample :
    deserializeMessage (.obj (serializeMessage twoBlockMessage)) =
      .error "invalid type: expected string" ∧
    deserializeMessage (.obj (serializeMessage twoBlockMessage)) ≠ .ok twoBlockMessage := by
  refine ⟨rfl, ?_⟩
  intro h
  rw [show deserializeMessage (.obj (serializeMessage twoBlockMessage)) =
      .error "invalid type: expected string" from rfl] at h
  exact Except.noConfusion h

/-- Claim C7 amended: serializing a message in which at most one of
string content and multipart content is populated emits at most one
`content` wire member; deserializing an object with role and string content
`"x"` yields string content with no multipart; and serializing then
deserializing the two-block multipart message fails with an invalid-type
error instead of round-tripping. -/
theorem claim_C7_content_exclusivity :
    (∀ m : Message, m.content = none ∨ m.multi_content = none →
      countKey "content" (serializeMessage m) ≤ 1) ∧
    deserializeMessage (.obj [("role", .str "user"), ("content", .str "x")]) =
      .ok ⟨.USER, some "x", none, none, none, none⟩ ∧
    deserializeMessage (.obj (serializeMessage twoBlockMessage)) =
      .error "invalid type: expected string" := by
  refine ⟨?_, rfl, rfl⟩
  rintro ⟨role, content, multi, tcs, tcid, nm⟩ h
  dsimp only at h
  rcases h with h | h
  · subst h
    cases multi <;> cases tcs <;> cases tcid <;> cases nm <;>
      simp +decide [serializeMessage, countKey, List.countP_cons, List.countP_append]
  · subst h
    cases content <;> cases tcs <;> cases tcid <;> cases nm <;>
      simp +decide [serializeMessage, countKey, List.countP_cons, List.countP_append]

/-- Witness for the amended C7: a message with only string content
serializes with a single `content` member. -/
theorem claim_C7_witness :
    countKey "content" (serializeMessage (systemMessage "p")) ≤ 1 :=
  claim_C7_content_exclusivity.1 (systemMessage "p") (Or.inr rfl)

end RAgent
